import Mathlib

/-!
Shallow embedding of the donor-verification pipeline of mhanauer/donation-verify
(src/app.py and src/app-dev.py) and proofs about it.

The two Streamlit scripts share the same shape: build a prompt string from the
donor fields, issue a remote completion call (modelled here as an oracle
function passed in explicitly), normalize the response's content segments to a
text, and post-process that text.  Remote calls are counted explicitly so that
"no call is issued" claims are statable.

Python string builtins used by the scripts (`in`, `strip`, `split('\n')`,
`startswith`, truthiness defaulting `x if x else d`) are modelled by structural
recursion over the character list of a `String`, so that every definition
evaluates inside the kernel.
-/

/-- Contiguous-substring test on character lists: does `p` occur in the
list?  (Executable form; proved equivalent to `List.IsInfix` below.) -/
def listInfixB (p : List Char) : List Char → Bool
  | [] => p.isEmpty
  | c :: t => p.isPrefixOf (c :: t) || listInfixB p t

/-- Boolean form of Python's substring test `pat in s`, used where the
scripts branch on it. -/
def pyInB (pat s : String) : Bool := listInfixB pat.data s.data

/-- Python's substring test `pat in s`: `pat` occurs contiguously in `s`
(proved equivalent to `pat.data <:+: s.data` in `pyIn_infix_iff`). -/
def pyIn (pat s : String) : Prop := pyInB pat s = true

instance (pat s : String) : Decidable (pyIn pat s) :=
  inferInstanceAs (Decidable (pyInB pat s = true))

/-- Whitespace characters removed by Python's `str.strip()` (ASCII part). -/
def pyIsSpace (c : Char) : Bool :=
  c = ' ' || c = '\t' || c = '\n' || c = '\r' || c = '\x0b' || c = '\x0c'

/-- Strip `pyIsSpace` characters from both ends of a character list. -/
def pyStripList (l : List Char) : List Char :=
  ((l.dropWhile pyIsSpace).reverse.dropWhile pyIsSpace).reverse

/-- Python's `s.strip()`. -/
def pyStrip (s : String) : String := ⟨pyStripList s.data⟩

/-- Python's `s.startswith(pre)`. -/
def pyStartswith (s pre : String) : Bool := decide (pre.data <+: s.data)

/-- Split a character list at every occurrence of the character `c`
(Python's `s.split(c)` for a one-character separator). -/
def splitOnChar (c : Char) : List Char → List (List Char)
  | [] => [[]]
  | a :: as =>
    if a = c then [] :: splitOnChar c as
    else
      match splitOnChar c as with
      | [] => [[a]]
      | h :: t => (a :: h) :: t

/-- Python's `s.split('\n')`. -/
def pySplitNL (s : String) : List String :=
  (splitOnChar '\n' s.data).map fun l => ⟨l⟩

/-- Python's truthiness default `s if s else d` for strings. -/
def pyOr (s d : String) : String := if s = "" then d else s

/-- One evidence item of a web-search tool-result block
(`{title, url, snippet}`, spec section 3). -/
structure EvidenceItem where
  title : String
  url : String
  snippet : String
deriving DecidableEq

/-- One content segment of the remote service's reply.  `text` blocks carry a
`.text` attribute; tool-invocation and tool-result blocks do not, which is
exactly what `hasattr(content_item, 'text')` probes in src/app-dev.py:95. -/
inductive Segment where
  | text (s : String)
  | toolInvocation (toolName input : String)
  | toolResult (items : List EvidenceItem)
deriving DecidableEq

/-- Does the segment carry a `.text` attribute? -/
def Segment.isText : Segment → Bool
  | .text _ => true
  | _ => false

/-- The external service's reply: an ordered list of content segments
(`message.content`). -/
structure RawModelResponse where
  content : List Segment
deriving DecidableEq

namespace AppDev

/-- The verification prompt of src/app-dev.py:59-64 (f-string `query`),
transcribed literally with its indentation. -/
def query (name title company : String) : String :=
  "Please search the web and verify this information: \n                - Name: "
    ++ name
    ++ "\n                - Title: "
    ++ title
    ++ "\n                - Company: "
    ++ company
    ++ "\n                \n                After searching, provide a detailed analysis of what you found and whether the information is accurate."

/-- Response normalization of src/app-dev.py:93-96: iterate the content list
and append `content_item.text + "\n"` for every segment that has a `.text`
attribute. -/
def verification_text (content : List Segment) : String :=
  content.foldl
    (fun acc seg =>
      match seg with
      | .text t => acc ++ t ++ "\n"
      | _ => acc)
    ""

/-- The fallback message assigned at src/app-dev.py:105 when no analysis text
was extracted. -/
def no_analysis_message : String :=
  "Web search was performed but no analysis was generated. Please try again."

/-- The summary prompt of src/app-dev.py:126-146 (f-string `summary_prompt`). -/
def summary_prompt (vtext name title company : String) : String :=
  "Based on this verification analysis, provide a clear summary:\n\nVERIFICATION ANALYSIS:\n"
    ++ vtext
    ++ "\n\nPERSON BEING VERIFIED:\n- Name: "
    ++ name
    ++ "\n- Title: "
    ++ title
    ++ "\n- Company: "
    ++ company
    ++ "\n\nIMPORTANT: Base your assessment on the verification analysis provided above. If the analysis confirms the person's role and company, give HIGH confidence. If partially confirmed, give MEDIUM. If not confirmed or no information found, give LOW.\n\nProvide exactly these three items:\n1. VERIFICATION STATUS: A 1-2 sentence summary of what was verified vs not verified\n2. CONFIDENCE LEVEL: Choose HIGH/MEDIUM/LOW with a brief explanation based on the verification analysis\n3. NEXT STEPS: A specific 1-2 sentence recommendation for action\n\nFormat your response EXACTLY like this:\nVERIFICATION STATUS: [Your summary]\nCONFIDENCE LEVEL: [HIGH/MEDIUM/LOW] - [Brief explanation]\nNEXT STEPS: [Your recommendation]"

/-- The confidence tier a summary line is tagged with. -/
inductive Confidence where
  | high
  | medium
  | low
deriving DecidableEq

/-- The `elif` chain of src/app-dev.py:170-175: substring search for
`"HIGH"`, then `"MEDIUM"`, then `"LOW"` within the line; no `else` branch, so
a line matching none of the three is left unclassified (`none`). -/
def classifyConf (line : String) : Option Confidence :=
  if pyInB "HIGH" line then some .high
  else if pyInB "MEDIUM" line then some .medium
  else if pyInB "LOW" line then some .low
  else none

/-- What the summary display loop emits for a line: `st.info`, `st.success`,
`st.warning`, `st.error` or `st.markdown`, each carrying the (stripped) line. -/
inductive RenderItem where
  | statusInfo (line : String)
  | confSuccess (line : String)
  | confWarning (line : String)
  | confError (line : String)
  | nextSteps (line : String)
deriving DecidableEq

/-- One iteration of the display loop of src/app-dev.py:164-177: strip the
line, then dispatch on the fixed prefixes `"VERIFICATION STATUS:"`,
`"CONFIDENCE LEVEL:"`, `"NEXT STEPS:"`; the confidence branch is the
`classifyConf` chain (success/warning/error colour), and a line matching no
recognized prefix (or a confidence line with no marker) emits nothing. -/
def render_line (line : String) : List RenderItem :=
  let l := pyStrip line
  if pyStartswith l "VERIFICATION STATUS:" then [.statusInfo l]
  else if pyStartswith l "CONFIDENCE LEVEL:" then
    match classifyConf l with
    | some .high => [.confSuccess l]
    | some .medium => [.confWarning l]
    | some .low => [.confError l]
    | none => []
  else if pyStartswith l "NEXT STEPS:" then [.nextSteps l]
  else []

/-- The whole display loop of src/app-dev.py:163-177:
`summary_text.strip().split('\n')`, then each line rendered in order. -/
def render_summary (summary_text : String) : List RenderItem :=
  (pySplitNL (pyStrip summary_text)).flatMap render_line

/-- Outcome of one run of the src/app-dev.py handler (the `with col2:` block),
as far as the pipeline claims are concerned. -/
inductive DevResult where
  /-- `verify_btn and not name`: the st.warning at line 256, nothing else. -/
  | missingNameWarning
  /-- The `except` branch at lines 241-253. -/
  | exceptionShown (msg : String)
  /-- The summary gate at line 123 was false: the analysis (or the fallback
  message) was displayed but no summary call was made.  `emptyShown` records
  whether the st.error of line 106 fired (fallback message substituted). -/
  | noSummary (emptyShown : Bool) (displayedText : String)
  /-- Both stages ran: analysis text and summary text displayed. -/
  | completed (vtext summary_text : String)
deriving DecidableEq

/-- Result of a handler run plus the number of remote calls issued. -/
structure DevOutcome where
  result : DevResult
  remoteCalls : Nat
deriving DecidableEq

/-- The src/app-dev.py handler, with the two remote calls abstracted as
oracles (`client.beta.messages.create` for verification,
`client.messages.create` for the summary); an `Except.error` oracle result
models a raised exception, caught by the `except` at line 241.  Mirrors the
control flow of lines 48-256: name guard, verification call, normalization
(lines 93-96), empty-analysis fallback (lines 104-106), summary gate
(line 123) and summary call (lines 149-156). -/
def run (name title company : String)
    (verifyOracle : String → Except String RawModelResponse)
    (summaryOracle : String → Except String String) : DevOutcome :=
  if name = "" then ⟨.missingNameWarning, 0⟩
  else
    match verifyOracle (query name title company) with
    | .error e => ⟨.exceptionShown e, 1⟩
    | .ok resp =>
      let vt0 := verification_text resp.content
      let emptyDetected := vt0 == "" || pyStrip vt0 == ""
      let vt := if emptyDetected then no_analysis_message else vt0
      if vt ≠ "" ∧ vt ≠ no_analysis_message then
        match summaryOracle (summary_prompt vt name title company) with
        | .error e => ⟨.exceptionShown e, 2⟩
        | .ok s => ⟨.completed vt s, 2⟩
      else ⟨.noSummary emptyDetected vt, 1⟩

end AppDev

namespace App

/-- The verification prompt of src/app.py:158-180 (f-string
`verification_query`), transcribed literally: every optional field is rendered
through Python's `{field if field else 'Not provided'}`. -/
def verification_query (name email phone address job_title company linkedin_url : String) :
    String :=
  "\n                Please verify the following information about "
    ++ name
    ++ ":\n                \n                Name: "
    ++ name
    ++ "\n                Email: "
    ++ pyOr email "Not provided"
    ++ "\n                Phone: "
    ++ pyOr phone "Not provided"
    ++ "\n                Address: "
    ++ pyOr address "Not provided"
    ++ "\n                Job Title: "
    ++ pyOr job_title "Not provided"
    ++ "\n                Company: "
    ++ pyOr company "Not provided"
    ++ "\n                LinkedIn: "
    ++ pyOr linkedin_url "Not provided"
    ++ "\n                \n                Please search for information about this person and verify:\n                1. Is this person's job title and company correct?\n                2. Can you find any professional information about them?\n                3. Is the location (city/state) consistent with available information?\n                4. Are there any red flags or inconsistencies?\n                \n                Provide a structured response with:\n                - Verification status for each piece of information (Verified/Unable to Verify/Contradictory)\n                - Confidence level (High/Medium/Low)\n                - Any additional relevant information found\n                - Sources used for verification\n                "

/-- src/app.py:211: `message.content[0].text if message.content else
"No response received"`.  Indexing a segment without a `.text` attribute
raises `AttributeError` (caught by the surrounding `except`), modelled as
`Except.error`. -/
def response_text (content : List Segment) : Except String String :=
  match content with
  | [] => .ok "No response received"
  | .text s :: _ => .ok s
  | _ :: _ => .error "AttributeError: content block has no attribute text"

/-- Outcome of one run of the src/app.py form handler. -/
inductive AppResult where
  /-- `if not api_key`: the st.error at line 137, nothing else. -/
  | apiKeyMissing
  /-- `elif not name`: the st.error at line 139 ("Please enter at least the
  donor's name"), nothing else. -/
  | missingNameError
  /-- The `except` branch at lines 279-294. -/
  | exceptionShown (msg : String)
  /-- Success path: the parsed `response_text` is displayed, appended to the
  history and offered for download. -/
  | success (response : String)
deriving DecidableEq

/-- Result of a handler run plus the number of remote calls issued. -/
structure AppOutcome where
  result : AppResult
  remoteCalls : Nat
deriving DecidableEq

/-- The src/app.py form handler (lines 135-294), with the remote call
abstracted as an oracle.  `notes` is collected by the form but never used.
An empty `api_key` models the missing-secret case (Python truthiness of
`not api_key`). -/
def run (api_key name email phone address job_title company linkedin_url notes : String)
    (oracle : String → Except String RawModelResponse) : AppOutcome :=
  if api_key = "" then ⟨.apiKeyMissing, 0⟩
  else if name = "" then ⟨.missingNameError, 0⟩
  else
    match oracle (verification_query name email phone address job_title company linkedin_url) with
    | .error e => ⟨.exceptionShown e, 1⟩
    | .ok resp =>
      match response_text resp.content with
      | .error e => ⟨.exceptionShown e, 1⟩
      | .ok t => ⟨.success t, 1⟩

/-- A cell value as it comes out of `pd.read_csv` (src/app.py:334): a stored
string, or `NaN` — which is what pandas stores for an empty cell, since `''`
is among the default `na_values`. -/
inductive PdVal where
  | str (s : String)
  | nan
deriving DecidableEq

/-- Python truthiness of a cell value: an empty string is falsy, but
`bool(float('nan'))` is `True`, so `NaN` is truthy. -/
def PdVal.truthy : PdVal → Bool
  | .str s => !(s == "")
  | .nan => true

/-- `str()` of a cell value as an f-string interpolates it:
`str(float('nan'))` is the string `"nan"`. -/
def PdVal.render : PdVal → String
  | .str s => s
  | .nan => "nan"

/-- `row.get(col, default)` on a pandas `Series`: the default applies only
when the column label is absent from the row; a present cell returns its
stored value, even when that value is `NaN`. -/
def pdGet (cell : Option PdVal) (d : String) : PdVal :=
  cell.getD (PdVal.str d)

/-- One CSV row of the batch section (src/app.py:349-394): each field is
`none` when the column is absent from the CSV, otherwise the stored cell
value (`PdVal.nan` for an empty cell). -/
structure CsvRow where
  name : Option PdVal
  company : Option PdVal
  job_title : Option PdVal
  email : Option PdVal
deriving DecidableEq

/-- The batch query of src/app.py:361-368 (f-string `query`); interpolation
renders each cell value with `str()`. -/
def batch_query (donor_name : PdVal) (row : CsvRow) : String :=
  "\n                            Please verify: "
    ++ donor_name.render
    ++ "\n                            Company: "
    ++ (pdGet row.company "Not provided").render
    ++ "\n                            Job Title: "
    ++ (pdGet row.job_title "Not provided").render
    ++ "\n                            Email: "
    ++ (pdGet row.email "Not provided").render
    ++ "\n                            \n                            Provide a brief verification summary.\n                            "

/-- src/app.py:385: `message.content[0].text if message.content else
'No response'` (same shape as `response_text`, different placeholder). -/
def batch_details (content : List Segment) : Except String String :=
  match content with
  | [] => .ok "No response"
  | .text s :: _ => .ok s
  | _ :: _ => .error "AttributeError: content block has no attribute text"

/-- One entry of the batch `results` list; `'name': donor_name` stores the
cell value itself (the `NaN` object for an empty cell). -/
structure BatchEntry where
  name : PdVal
  status : String
  details : String
deriving DecidableEq

/-- The batch loop of src/app.py:349-394: for each row, read
`donor_name = row.get('name', '')`; `if not donor_name: continue` skips the
row (no call, no entry) exactly when that value is falsy — the default `''`
for an absent name column, or a stored empty string.  An empty name cell is
`NaN`, which is truthy, so such a row is not skipped.  For every processed
row one remote call is made and exactly one entry is appended — `Verified`
with the extracted details on success, `Error` with the exception text
otherwise (the per-row `try`/`except`).  Returns the results list in input
order together with the number of remote calls issued. -/
def runBatch (rows : List CsvRow)
    (oracle : String → Except String RawModelResponse) : List BatchEntry × Nat :=
  match rows with
  | [] => ([], 0)
  | row :: rest =>
    let donor_name := pdGet row.name ""
    if donor_name.truthy = false then runBatch rest oracle
    else
      let entry :=
        match oracle (batch_query donor_name row) with
        | .error e => ⟨donor_name, "Error", e⟩
        | .ok msg =>
          match batch_details msg.content with
          | .error e => (⟨donor_name, "Error", e⟩ : BatchEntry)
          | .ok d => ⟨donor_name, "Verified", d⟩
      let (entries, calls) := runBatch rest oracle
      (entry :: entries, calls + 1)

end App

/-- Modelled from the spec: neither file under src/ collects evidence items
from `ToolResultSegment`s (src/app-dev.py:109 overwrites `search_results` with
a constant placeholder list); the per-segment evidence collection with its
adjustable cap described in spec sections 3 and 4.2 lives in repository
variants not included under src/.  Following the spec's words: "collect up to
a fixed cap (default 5) of evidence entries per `ToolResultSegment`",
"evidence items are concatenated across all result segments". -/
def searchEvidenceCapped (cap : Nat) (content : List Segment) : List EvidenceItem :=
  content.foldl
    (fun acc seg =>
      match seg with
      | .toolResult items => acc ++ items.take cap
      | _ => acc)
    []

/-- Modelled from the spec: the evidence collection at its default cap of 5. -/
def searchEvidence (content : List Segment) : List EvidenceItem :=
  searchEvidenceCapped 5 content

/-! ### Helper lemmas -/

theorem listInfixB_iff (p l : List Char) : listInfixB p l = true ↔ p <:+: l := by
  induction l with
  | nil => simp [listInfixB]
  | cons c t ih =>
    simp [listInfixB, List.infix_cons_iff, ih, List.isPrefixOf_iff_prefix]

/-- The executable substring test agrees with `List.IsInfix`. -/
theorem pyIn_infix_iff (pat s : String) : pyIn pat s ↔ pat.data <:+: s.data :=
  listInfixB_iff pat.data s.data

theorem pyIn_refl (a : String) : pyIn a a :=
  (pyIn_infix_iff a a).mpr (List.infix_refl _)

theorem pyIn_appL {a s : String} (t : String) (h : pyIn a s) : pyIn a (s ++ t) := by
  rw [pyIn_infix_iff] at h ⊢
  obtain ⟨u, v, huv⟩ := h
  exact ⟨u, v ++ t.data, by rw [String.data_append, ← huv]; simp⟩

theorem pyIn_appR {a t : String} (s : String) (h : pyIn a t) : pyIn a (s ++ t) := by
  rw [pyIn_infix_iff] at h ⊢
  obtain ⟨u, v, huv⟩ := h
  exact ⟨s.data ++ u, v, by rw [String.data_append, ← huv]; simp⟩

/-- Containment that crosses the boundary between a template chunk `b` and the
value `p` substituted right after it. -/
theorem pyIn_glue {a b p : String} (x : String) (h : pyIn a (b ++ p)) :
    pyIn a (x ++ b ++ p) := by
  rw [String.append_assoc]
  exact pyIn_appR x h

theorem AppDev.verification_text_foldl_acc (l : List Segment) (acc : String) :
    l.foldl
        (fun acc seg =>
          match seg with
          | .text t => acc ++ t ++ "\n"
          | _ => acc)
        acc
      = acc ++ AppDev.verification_text l := by
  induction l generalizing acc with
  | nil => simp [AppDev.verification_text]
  | cons seg rest ih =>
    cases seg with
    | text t =>
      simp only [AppDev.verification_text, List.foldl_cons]
      rw [ih, ih ("" ++ t ++ "\n")]
      simp [String.append_assoc]
    | toolInvocation n i =>
      simp only [AppDev.verification_text, List.foldl_cons]
      rw [ih, ih "", String.empty_append]
    | toolResult items =>
      simp only [AppDev.verification_text, List.foldl_cons]
      rw [ih, ih "", String.empty_append]

/-- `verification_text` splits over list concatenation. -/
theorem AppDev.verification_text_append (l₁ l₂ : List Segment) :
    AppDev.verification_text (l₁ ++ l₂)
      = AppDev.verification_text l₁ ++ AppDev.verification_text l₂ := by
  simp only [AppDev.verification_text, List.foldl_append]
  rw [AppDev.verification_text_foldl_acc]
  rfl

/-- A response with no `.text`-bearing segment normalizes to the empty
string. -/
theorem AppDev.verification_text_of_no_text {l : List Segment}
    (h : ∀ seg ∈ l, Segment.isText seg = false) :
    AppDev.verification_text l = "" := by
  induction l with
  | nil => rfl
  | cons seg rest ih =>
    have hseg := h seg (List.mem_cons_self _ _)
    have hrest : ∀ s ∈ rest, Segment.isText s = false := fun s hs =>
      h s (List.mem_cons_of_mem _ hs)
    cases seg with
    | text t => simp [Segment.isText] at hseg
    | toolInvocation n i =>
      simpa only [AppDev.verification_text, List.foldl_cons] using ih hrest
    | toolResult items =>
      simpa only [AppDev.verification_text, List.foldl_cons] using ih hrest

theorem searchEvidenceCapped_foldl_acc (cap : Nat) (l : List Segment)
    (acc : List EvidenceItem) :
    l.foldl
        (fun acc seg =>
          match seg with
          | .toolResult items => acc ++ items.take cap
          | _ => acc)
        acc
      = acc ++ searchEvidenceCapped cap l := by
  induction l generalizing acc with
  | nil => simp [searchEvidenceCapped]
  | cons seg rest ih =>
    cases seg with
    | text t =>
      simp only [searchEvidenceCapped, List.foldl_cons]
      rw [ih, ih []]
      simp
    | toolInvocation n i =>
      simp only [searchEvidenceCapped, List.foldl_cons]
      rw [ih, ih []]
      simp
    | toolResult items =>
      simp only [searchEvidenceCapped, List.foldl_cons]
      rw [ih, ih ([] ++ items.take cap)]
      simp

/-- `searchEvidenceCapped` splits over list concatenation. -/
theorem searchEvidenceCapped_append (cap : Nat) (l₁ l₂ : List Segment) :
    searchEvidenceCapped cap (l₁ ++ l₂)
      = searchEvidenceCapped cap l₁ ++ searchEvidenceCapped cap l₂ := by
  simp only [searchEvidenceCapped, List.foldl_append]
  rw [searchEvidenceCapped_foldl_acc]
  rfl

/-! ### Claim theorems -/

/-- C3 counterexample: `src/app.py:211` keeps only the first content
segment's text.  On a response with two `TextSegment`s the extracted text is
the first segment's text alone, and the second segment's text does not occur
in it: text segments after the first are dropped, refuting the claim as
stated for `app.py`'s normalization. -/
theorem response_text_drops_second_segment :
    App.response_text [Segment.text "first segment", Segment.text "second segment"]
        = Except.ok "first segment"
      ∧ ¬ pyIn "second segment" "first segment" := by
  constructor
  · rfl
  · decide

/-- C3 (amended): in `src/app-dev.py` (lines 91-101) normalization iterates
the content segments in order and concatenates every `TextSegment`'s text,
each followed by a line break, dropping none: it is a monoid homomorphism
from segment lists to strings that sends a text segment to its text plus a
line break and the tool segments to the empty string.  In `src/app.py:211`,
by contrast, only the first content segment's text is used (see the
counterexample). -/
theorem verification_text_concatenates_all_segments :
    (∀ l₁ l₂ : List Segment,
        AppDev.verification_text (l₁ ++ l₂)
          = AppDev.verification_text l₁ ++ AppDev.verification_text l₂)
    ∧ (∀ s : String, AppDev.verification_text [Segment.text s] = s ++ "\n")
    ∧ (∀ n i : String, AppDev.verification_text [Segment.toolInvocation n i] = "")
    ∧ (∀ items : List EvidenceItem,
        AppDev.verification_text [Segment.toolResult items] = "")
    ∧ (∀ (s : String) (rest : List Segment),
        App.response_text (Segment.text s :: rest) = Except.ok s) := by
  refine ⟨AppDev.verification_text_append, ?_, ?_, ?_, ?_⟩
  · intro s
    show ("" ++ s) ++ "\n" = s ++ "\n"
    rw [String.empty_append]
  · intro n i
    rfl
  · intro items
    rfl
  · intro s rest
    rfl

/-- C8 counterexample: normalization appends a line break to every text
segment, so re-running it on an already-normalized response (a single
`TextSegment` holding the previously produced text) adds one more trailing
line break instead of returning the same text: normalization is not
idempotent. -/
theorem verification_text_not_idempotent :
    AppDev.verification_text
        [Segment.text (AppDev.verification_text [Segment.text "x"])]
      ≠ AppDev.verification_text [Segment.text "x"] := by
  decide

/-- C8 (amended): re-running normalization on a response containing a single
`TextSegment` holding the previously produced `analysisText` returns that
text with exactly one additional trailing line break appended (rather than
the same text). -/
theorem verification_text_renormalize :
    ∀ l : List Segment,
      AppDev.verification_text [Segment.text (AppDev.verification_text l)]
        = AppDev.verification_text l ++ "\n" := by
  intro l
  show ("" ++ AppDev.verification_text l) ++ "\n" = AppDev.verification_text l ++ "\n"
  rw [String.empty_append]

/-- C9 (spec-modelled): each `ToolResultSegment` contributes exactly its
first `min 5 n` items to `searchEvidence`, in their original order (the
contribution is a prefix of the segment's item list of length at most 5);
in particular a segment with 8 items contributes exactly 5 entries. -/
theorem searchEvidence_caps_per_segment :
    (∀ (pre post : List Segment) (items : List EvidenceItem),
        searchEvidence (pre ++ Segment.toolResult items :: post)
          = searchEvidence pre ++ (items.take 5 ++ searchEvidence post))
    ∧ (∀ items : List EvidenceItem,
        (items.take 5).length ≤ 5 ∧ items.take 5 <+: items)
    ∧ (searchEvidence
        [Segment.toolResult
          [⟨"t1", "u1", "s1"⟩, ⟨"t2", "u2", "s2"⟩, ⟨"t3", "u3", "s3"⟩,
           ⟨"t4", "u4", "s4"⟩, ⟨"t5", "u5", "s5"⟩, ⟨"t6", "u6", "s6"⟩,
           ⟨"t7", "u7", "s7"⟩, ⟨"t8", "u8", "s8"⟩]]).length = 5 := by
  refine ⟨?_, ?_, ?_⟩
  · intro pre post items
    have h : pre ++ Segment.toolResult items :: post
        = pre ++ ([Segment.toolResult items] ++ post) := by simp
    rw [h, searchEvidence, searchEvidenceCapped_append,
      searchEvidenceCapped_append]
    simp [searchEvidence, searchEvidenceCapped]
  · intro items
    exact ⟨by rw [List.length_take]; exact Nat.min_le_left 5 items.length,
      List.take_prefix 5 items⟩
  · decide

set_option maxRecDepth 4096 in
/-- C10 counterexample: `pd.read_csv` parses an empty name cell as `NaN`
(`''` is among the default `na_values`), `row.get('name','')` returns the
stored `NaN` (the default applies only to an absent column), and
`bool(nan)` is `True`, so src/app.py:357-358 does not skip such a row: a
remote call is issued (with the prompt reading "Please verify: nan") and a
result entry named by the `NaN` value is appended — refuting the claim that
a row with an empty name field is skipped with no call and no entry. -/
theorem runBatch_processes_nan_name :
    App.runBatch [⟨some App.PdVal.nan, some (App.PdVal.str "Acme"), none, none⟩]
        (fun _ => Except.ok ⟨[Segment.text "All good"]⟩)
      = ([⟨App.PdVal.nan, "Verified", "All good"⟩], 1)
    ∧ pyIn "Please verify: nan"
        (App.batch_query App.PdVal.nan
          ⟨some App.PdVal.nan, some (App.PdVal.str "Acme"), none, none⟩) := by
  exact ⟨rfl, by decide⟩

/-- C10 (amended): in batch CSV mode a row is skipped silently (no remote
call, no result entry) exactly when `row.get('name','')` is falsy — the
default `''` for an absent name column, or a stored empty string; an empty
name cell, parsed by pandas as `NaN`, is truthy, so its row is not skipped.
Every processed row yields exactly one result entry, in input order (the
entry names are exactly the processed rows' name values in order), and the
number of remote calls equals the number of processed rows, so the results
list can be shorter than the input only through falsy-name rows. -/
theorem runBatch_skips_only_falsy_names :
    ∀ (rows : List App.CsvRow) (oracle : String → Except String RawModelResponse),
      ((App.runBatch rows oracle).1.map App.BatchEntry.name
          = (rows.filter fun r => (App.pdGet r.name "").truthy).map
              fun r => App.pdGet r.name "")
      ∧ (App.runBatch rows oracle).1.length
          = (rows.filter fun r => (App.pdGet r.name "").truthy).length
      ∧ (App.runBatch rows oracle).2
          = (rows.filter fun r => (App.pdGet r.name "").truthy).length
      ∧ (App.pdGet (some App.PdVal.nan) "").truthy = true
      ∧ (App.pdGet none "").truthy = false := by
  intro rows oracle
  have key :
      ((App.runBatch rows oracle).1.map App.BatchEntry.name
          = (rows.filter fun r => (App.pdGet r.name "").truthy).map
              fun r => App.pdGet r.name "")
      ∧ (App.runBatch rows oracle).1.length
          = (rows.filter fun r => (App.pdGet r.name "").truthy).length
      ∧ (App.runBatch rows oracle).2
          = (rows.filter fun r => (App.pdGet r.name "").truthy).length := by
    induction rows with
    | nil => simp [App.runBatch]
    | cons row rest ih =>
      obtain ⟨ih₁, ih₂, ih₃⟩ := ih
      by_cases h : (App.pdGet row.name "").truthy = false
      · simpa [App.runBatch, List.filter_cons, h] using ⟨ih₁, ih₂, ih₃⟩
      · have h' : (App.pdGet row.name "").truthy = true := by simpa using h
        rcases hrb : App.runBatch rest oracle with ⟨entries, calls⟩
        rw [hrb] at ih₁ ih₂ ih₃
        dsimp only at ih₁ ih₂ ih₃
        cases horacle : oracle (App.batch_query (App.pdGet row.name "") row) with
        | error e =>
          simp only [App.runBatch, if_neg h, horacle, hrb, List.filter_cons]
          simp [h', ih₁, ih₂, ih₃]
        | ok msg =>
          cases hdet : App.batch_details msg.content with
          | error e =>
            simp only [App.runBatch, if_neg h, horacle, hdet, hrb,
              List.filter_cons]
            simp [h', ih₁, ih₂, ih₃]
          | ok d =>
            simp only [App.runBatch, if_neg h, horacle, hdet, hrb,
              List.filter_cons]
            simp [h', ih₁, ih₂, ih₃]
  exact ⟨key.1, key.2.1, key.2.2, rfl, rfl⟩

/-- C2: a `DonorRecord` with an empty name never reaches the remote service:
in `src/app.py` (lines 135-139) zero remote calls are issued whatever the
configuration, and with a configured API key the handler stops with the
missing-name validation error; in `src/app-dev.py` (lines 48, 255-256) the
handler stops with the missing-name warning and zero remote calls. -/
theorem empty_name_no_remote_call :
    ∀ (api_key email phone address job_title company linkedin_url notes title
        companyDev : String)
      (oracle : String → Except String RawModelResponse)
      (verifyOracle : String → Except String RawModelResponse)
      (summaryOracle : String → Except String String),
      (App.run api_key "" email phone address job_title company linkedin_url notes
          oracle).remoteCalls = 0
      ∧ (api_key ≠ "" →
          (App.run api_key "" email phone address job_title company linkedin_url notes
              oracle).result = App.AppResult.missingNameError)
      ∧ AppDev.run "" title companyDev verifyOracle summaryOracle
          = ⟨AppDev.DevResult.missingNameWarning, 0⟩ := by
  intro api_key email phone address job_title company linkedin_url notes title
    companyDev oracle verifyOracle summaryOracle
  refine ⟨?_, ?_, ?_⟩
  · by_cases h : api_key = "" <;> simp [App.run, h]
  · intro h
    simp [App.run, h]
  · rfl

/-- Witness for C2 at a concrete input: with a configured key and an oracle
that would answer, the empty-name run still reports the validation error. -/
theorem empty_name_no_remote_call_witness :
    (App.run "sk-ant-api03-key" "" "" "" "" "" "" "" ""
        (fun _ => Except.ok ⟨[]⟩)).result = App.AppResult.missingNameError :=
  (empty_name_no_remote_call "sk-ant-api03-key" "" "" "" "" "" "" "" "" ""
      (fun _ => Except.ok ⟨[]⟩) (fun _ => Except.ok ⟨[]⟩)
      (fun _ => Except.ok "")).2.1 (by decide)

/-- C1 counterexample: in `src/app.py`, a transport-successful response with
zero `TextSegment`s (empty content list) is not signalled as any distinct
soft failure: line 211 silently substitutes the placeholder string
`"No response received"` and the handler proceeds to report success,
displaying, storing and exporting the placeholder. -/
theorem empty_response_silent_success_in_app :
    App.run "sk-ant-api03-key" "Jane Doe" "" "" "" "" "" "" ""
        (fun _ => Except.ok ⟨[]⟩)
      = ⟨App.AppResult.success "No response received", 1⟩ := by
  decide

/-- C1 (amended): in the two-stage `src/app-dev.py` (lines 104-123), a
response whose content has zero `.text`-bearing segments makes the handler
signal the empty-analysis soft failure (the st.error of line 106, with the
fallback message substituted for the analysis), issue no summary-stage call,
and finish with exactly one remote call; the fallback text is displayed but
never passed to the summary stage.  In `src/app.py` the same situation is
instead silently reported as success with a placeholder string (see the
counterexample). -/
theorem empty_response_blocks_summary :
    ∀ (name title company : String)
      (verifyOracle : String → Except String RawModelResponse)
      (summaryOracle : String → Except String String)
      (resp : RawModelResponse),
      name ≠ "" →
      verifyOracle (AppDev.query name title company) = Except.ok resp →
      (∀ seg ∈ resp.content, Segment.isText seg = false) →
      AppDev.run name title company verifyOracle summaryOracle
        = ⟨AppDev.DevResult.noSummary true AppDev.no_analysis_message, 1⟩ := by
  intro name title company verifyOracle summaryOracle resp hname horacle hnotext
  have hvt : AppDev.verification_text resp.content = "" :=
    AppDev.verification_text_of_no_text hnotext
  simp [AppDev.run, if_neg hname, horacle, hvt]

/-- Witness for C1 at a concrete input: a response consisting of a single
tool-invocation segment and no text segment. -/
theorem empty_response_blocks_summary_witness :
    AppDev.run "Jane Doe" "Engineer" "Acme"
        (fun _ => Except.ok ⟨[Segment.toolInvocation "web_search" "Jane Doe"]⟩)
        (fun _ => Except.ok "SUMMARY")
      = ⟨AppDev.DevResult.noSummary true AppDev.no_analysis_message, 1⟩ :=
  empty_response_blocks_summary "Jane Doe" "Engineer" "Acme"
    (fun _ => Except.ok ⟨[Segment.toolInvocation "web_search" "Jane Doe"]⟩)
    (fun _ => Except.ok "SUMMARY")
    ⟨[Segment.toolInvocation "web_search" "Jane Doe"]⟩
    (by decide) rfl (by decide)

/-- A line that starts with `"CONFIDENCE LEVEL:"` does not start with
`"VERIFICATION STATUS:"`. -/
theorem not_verification_status_of_confidence {l : String}
    (h : pyStartswith l "CONFIDENCE LEVEL:" = true) :
    pyStartswith l "VERIFICATION STATUS:" = false := by
  by_contra hc
  have h₁ : ("CONFIDENCE LEVEL:" : String).data <+: l.data := by
    simpa [pyStartswith] using h
  have h₂ : ("VERIFICATION STATUS:" : String).data <+: l.data := by
    have := (Bool.not_eq_false _).mp hc
    simpa [pyStartswith] using this
  rcases List.prefix_or_prefix_of_prefix h₁ h₂ with h₃ | h₃
  · exact absurd h₃ (by decide)
  · exact absurd h₃ (by decide)

/-- C4: the confidence line is tagged by substring search for `"HIGH"`,
`"MEDIUM"`, `"LOW"` in that priority order (src/app-dev.py:170-175): a line
containing `"HIGH"` is tagged high even if other markers are present, and so
on down the chain; when none of the three markers occurs the classification
is `none` — a representable, non-error state, for which the display loop
simply emits nothing for that line. -/
theorem confidence_tagged_by_priority :
    ∀ line : String,
      (pyIn "HIGH" line → AppDev.classifyConf line = some AppDev.Confidence.high)
      ∧ (¬ pyIn "HIGH" line → pyIn "MEDIUM" line →
          AppDev.classifyConf line = some AppDev.Confidence.medium)
      ∧ (¬ pyIn "HIGH" line → ¬ pyIn "MEDIUM" line → pyIn "LOW" line →
          AppDev.classifyConf line = some AppDev.Confidence.low)
      ∧ (¬ pyIn "HIGH" line → ¬ pyIn "MEDIUM" line → ¬ pyIn "LOW" line →
          AppDev.classifyConf line = none)
      ∧ (pyStartswith (pyStrip line) "CONFIDENCE LEVEL:" = true →
          AppDev.classifyConf (pyStrip line) = none →
          AppDev.render_line line = []) := by
  intro line
  refine ⟨?_, ?_, ?_, ?_, ?_⟩
  · intro h
    have h' : pyInB "HIGH" line = true := h
    simp [AppDev.classifyConf, h']
  · intro h₁ h₂
    have h₁' : pyInB "HIGH" line = false := by simpa [pyIn] using h₁
    have h₂' : pyInB "MEDIUM" line = true := h₂
    simp [AppDev.classifyConf, h₁', h₂']
  · intro h₁ h₂ h₃
    have h₁' : pyInB "HIGH" line = false := by simpa [pyIn] using h₁
    have h₂' : pyInB "MEDIUM" line = false := by simpa [pyIn] using h₂
    have h₃' : pyInB "LOW" line = true := h₃
    simp [AppDev.classifyConf, h₁', h₂', h₃']
  · intro h₁ h₂ h₃
    have h₁' : pyInB "HIGH" line = false := by simpa [pyIn] using h₁
    have h₂' : pyInB "MEDIUM" line = false := by simpa [pyIn] using h₂
    have h₃' : pyInB "LOW" line = false := by simpa [pyIn] using h₃
    simp [AppDev.classifyConf, h₁', h₂', h₃']
  · intro hstart hnone
    simp [AppDev.render_line, not_verification_status_of_confidence hstart,
      hstart, hnone]

/-- Witness for C4 at a concrete input: a confidence line containing both
`"MEDIUM"` and `"LOW"` is tagged medium (higher priority), via the theorem. -/
theorem confidence_tagged_by_priority_witness :
    AppDev.classifyConf "CONFIDENCE LEVEL: MEDIUM - LOW coverage"
      = some AppDev.Confidence.medium :=
  (confidence_tagged_by_priority "CONFIDENCE LEVEL: MEDIUM - LOW coverage").2.1
    (by decide) (by decide)

/-- C7: on the three literal summary lines, the fixed-prefix display loop of
src/app-dev.py:163-177 recognizes the status line, tags the confidence line
MEDIUM (st.warning) and recognizes the next-steps line, in order; the text
following the recognized prefixes is `" ok"`, resp. `" contact donor"`
(i.e. statuses "ok" and "contact donor" after stripping); and a line
matching no recognized prefix is ignored (renders nothing), not an error. -/
theorem summary_lines_parsed_by_prefix :
    AppDev.render_summary
        "VERIFICATION STATUS: ok\nCONFIDENCE LEVEL: MEDIUM - some sources\nNEXT STEPS: contact donor"
        = [AppDev.RenderItem.statusInfo "VERIFICATION STATUS: ok",
           AppDev.RenderItem.confWarning "CONFIDENCE LEVEL: MEDIUM - some sources",
           AppDev.RenderItem.nextSteps "NEXT STEPS: contact donor"]
      ∧ ("VERIFICATION STATUS: ok" : String) = "VERIFICATION STATUS:" ++ " ok"
      ∧ pyStrip " ok" = "ok"
      ∧ AppDev.classifyConf "CONFIDENCE LEVEL: MEDIUM - some sources"
          = some AppDev.Confidence.medium
      ∧ ("NEXT STEPS: contact donor" : String) = "NEXT STEPS:" ++ " contact donor"
      ∧ pyStrip " contact donor" = "contact donor"
      ∧ AppDev.render_line "Some unrecognized line" = [] := by
  decide

/-- C5: both prompt builders interpolate the donor fields verbatim: the
rendered prompt of `src/app.py:158-180` contains the literal `name` and, for
each other field that is non-empty, that field's value as a substring; the
prompt of `src/app-dev.py:59-64` likewise contains its `name`, `title` and
`company` verbatim. -/
theorem prompt_contains_fields :
    ∀ (name email phone address job_title company linkedin_url title
        companyDev : String),
      name ≠ "" →
      pyIn name
          (App.verification_query name email phone address job_title company
            linkedin_url)
      ∧ (email ≠ "" →
          pyIn email
            (App.verification_query name email phone address job_title company
              linkedin_url))
      ∧ (phone ≠ "" →
          pyIn phone
            (App.verification_query name email phone address job_title company
              linkedin_url))
      ∧ (address ≠ "" →
          pyIn address
            (App.verification_query name email phone address job_title company
              linkedin_url))
      ∧ (job_title ≠ "" →
          pyIn job_title
            (App.verification_query name email phone address job_title company
              linkedin_url))
      ∧ (company ≠ "" →
          pyIn company
            (App.verification_query name email phone address job_title company
              linkedin_url))
      ∧ (linkedin_url ≠ "" →
          pyIn linkedin_url
            (App.verification_query name email phone address job_title company
              linkedin_url))
      ∧ pyIn name (AppDev.query name title companyDev)
      ∧ (title ≠ "" → pyIn title (AppDev.query name title companyDev))
      ∧ (companyDev ≠ "" → pyIn companyDev (AppDev.query name title companyDev)) := by
  intro name email phone address job_title company linkedin_url title companyDev _
  refine ⟨?_, ?_, ?_, ?_, ?_, ?_, ?_, ?_, ?_, ?_⟩
  · simp only [App.verification_query]
    repeat first
      | exact pyIn_appR _ (pyIn_refl _)
      | apply pyIn_appL
  · intro h
    simp only [App.verification_query, pyOr, if_neg h]
    repeat first
      | exact pyIn_appR _ (pyIn_refl _)
      | apply pyIn_appL
  · intro h
    simp only [App.verification_query, pyOr, if_neg h]
    repeat first
      | exact pyIn_appR _ (pyIn_refl _)
      | apply pyIn_appL
  · intro h
    simp only [App.verification_query, pyOr, if_neg h]
    repeat first
      | exact pyIn_appR _ (pyIn_refl _)
      | apply pyIn_appL
  · intro h
    simp only [App.verification_query, pyOr, if_neg h]
    repeat first
      | exact pyIn_appR _ (pyIn_refl _)
      | apply pyIn_appL
  · intro h
    simp only [App.verification_query, pyOr, if_neg h]
    repeat first
      | exact pyIn_appR _ (pyIn_refl _)
      | apply pyIn_appL
  · intro h
    simp only [App.verification_query, pyOr, if_neg h]
    repeat first
      | exact pyIn_appR _ (pyIn_refl _)
      | apply pyIn_appL
  · simp only [AppDev.query]
    repeat first
      | exact pyIn_appR _ (pyIn_refl _)
      | apply pyIn_appL
  · intro _
    simp only [AppDev.query]
    repeat first
      | exact pyIn_appR _ (pyIn_refl _)
      | apply pyIn_appL
  · intro _
    simp only [AppDev.query]
    repeat first
      | exact pyIn_appR _ (pyIn_refl _)
      | apply pyIn_appL

/-- Witness for C5 at a concrete input: the email value occurs verbatim in
the rendered prompt. -/
theorem prompt_contains_fields_witness :
    pyIn "matthewhanauer99@gmail.com"
      (App.verification_query "Matthew Hanauer" "matthewhanauer99@gmail.com"
        "260-409-5700" "730 Crestview Drive" "Senior Director Data Science"
        "MedeAnalytics" "https://linkedin.com/in/mh") :=
  (prompt_contains_fields "Matthew Hanauer" "matthewhanauer99@gmail.com"
      "260-409-5700" "730 Crestview Drive" "Senior Director Data Science"
      "MedeAnalytics" "https://linkedin.com/in/mh" "T" "C"
      (by decide)).2.1 (by decide)

set_option maxRecDepth 4096 in
/-- C6 counterexample: the prompt of `src/app-dev.py:59-64` interpolates
`title` and `company` with no fallback, so with both fields empty the
rendered prompt shows an empty slot after `"- Title: "` and contains neither
a "provided" nor an "unknown" placeholder word (the patterns `"rovided"` and
`"nknown"` cover both capitalizations). -/
theorem dev_prompt_has_no_placeholder :
    ¬ pyIn "rovided" (AppDev.query "X" "" "")
    ∧ ¬ pyIn "nknown" (AppDev.query "X" "" "")
    ∧ pyIn "- Title: \n" (AppDev.query "X" "" "") := by
  refine ⟨by decide, by decide, by decide⟩

set_option maxRecDepth 4096 in
/-- C6 (amended): in `src/app.py:158-180` every optional field that is empty
renders the explicit `"Not provided"` placeholder in its labeled slot (the
prompt contains `"<Label>: Not provided"`), keeping the fixed-shape template;
in `src/app-dev.py:59-64` the prompt interpolates `title` and `company`
directly with no placeholder, so an empty field renders as an empty slot
(see the counterexample). -/
theorem empty_fields_render_placeholder :
    ∀ (name email phone address job_title company linkedin_url : String),
      (email = "" →
        pyIn "Email: Not provided"
          (App.verification_query name email phone address job_title company
            linkedin_url))
      ∧ (phone = "" →
          pyIn "Phone: Not provided"
            (App.verification_query name email phone address job_title company
              linkedin_url))
      ∧ (address = "" →
          pyIn "Address: Not provided"
            (App.verification_query name email phone address job_title company
              linkedin_url))
      ∧ (job_title = "" →
          pyIn "Job Title: Not provided"
            (App.verification_query name email phone address job_title company
              linkedin_url))
      ∧ (company = "" →
          pyIn "Company: Not provided"
            (App.verification_query name email phone address job_title company
              linkedin_url))
      ∧ (linkedin_url = "" →
          pyIn "LinkedIn: Not provided"
            (App.verification_query name email phone address job_title company
              linkedin_url)) := by
  intro name email phone address job_title company linkedin_url
  refine ⟨?_, ?_, ?_, ?_, ?_, ?_⟩ <;> intro h <;> subst h <;>
    simp only [App.verification_query, pyOr, if_pos rfl] <;>
    repeat first
      | exact pyIn_glue _ (by decide)
      | apply pyIn_appL

/-- Witness for C6 at a concrete input: with an empty email field the
rendered prompt shows the labeled placeholder. -/
theorem empty_fields_render_placeholder_witness :
    pyIn "Email: Not provided"
      (App.verification_query "Matthew Hanauer" "" "260-409-5700" "" "" "" "") :=
  (empty_fields_render_placeholder "Matthew Hanauer" "" "260-409-5700" "" "" ""
      "").1 (by decide)


